import Mathlib

/-!
Verification development for the AI real-estate call bot.

The embedding models the two core modules:
  * `properties_rag.py` — the `RealEstateRAG` knowledge engine
    (`query_knowledge_base`, `_generate_company_response`,
    `_initialize_vectorstore`);
  * `twilio_webhookx.py` — the per-call dialogue controller
    (`CallAssistant.handle_intents`, `CallAssistant.generate_response`,
    the `/voice` and `/process` webhook handlers, and the module-level
    `sessions` dict).

Python strings are modelled as `List Char` (`Str`), so that every string
operation the code performs (`.lower()`, `in` substring test, `.strip()`,
`"sep".join`, f-string concatenation) is an executable Lean function that
the kernel can evaluate on concrete inputs.  External collaborators are
modelled at their interface: the Gemini generation client is an opaque
`Str → Except Str Str` (either returns text or raises, carrying the
exception message), and the FAISS vector store is an opaque similarity
search function `Str → Nat → List Doc`.
-/

/-- Python strings, modelled as lists of characters. -/
abbrev Str := List Char

/-- Embed a Lean string literal into the model. -/
def S (s : String) : Str := s.data

/-- Does the second list start with the first?  (Helper for the Python
`in` substring test.) -/
def pyStartsWith : Str → Str → Bool
  | [], _ => true
  | _ :: _, [] => false
  | a :: as, b :: bs => (a = b) && pyStartsWith as bs

/-- Python `needle in haystack` substring test on strings. -/
def pyContains (needle : Str) : Str → Bool
  | [] => pyStartsWith needle []
  | c :: rest => pyStartsWith needle (c :: rest) || pyContains needle rest

/-- Python `str.lower()` (ASCII, which covers every string the code
compares against). -/
def pyLower (s : Str) : Str := s.map Char.toLower

/-- Python whitespace characters recognised by `str.strip()`. -/
def isPyWhitespace (c : Char) : Bool :=
  c = ' ' || c = '\t' || c = '\n' || c = '\r' || c = '\x0b' || c = '\x0c'

/-- Python `str.strip()`: drop leading and trailing whitespace. -/
def pyStrip (s : Str) : Str :=
  ((s.dropWhile isPyWhitespace).reverse.dropWhile isPyWhitespace).reverse

/-- Python `sep.join(parts)`. -/
def pyJoin (sep : Str) : List Str → Str
  | [] => []
  | [x] => x
  | x :: y :: xs => x ++ sep ++ pyJoin sep (y :: xs)

/-- Decimal rendering of a number, as Python f-string interpolation does. -/
def natStr (n : Nat) : Str := Nat.toDigits 10 n

/-- The opaque Gemini generation client (`model.generate_content(prompt)`):
`Except.ok text` is a successful response, `Except.error msg` a raised
exception carrying its message. -/
abbrev GenClient := Str → Except Str Str

/-! ## Model of `properties_rag.py` -/

/-- A LangChain document returned by `vectorstore.similarity_search`;
only its `page_content` is used by the code. -/
structure Doc where
  page_content : Str
deriving DecidableEq

/-- The `RealEstateRAG` object as `query_knowledge_base` sees it:
the company profile text loaded at startup, and the FAISS vector store
abstracted to its `similarity_search(query, k)` interface. -/
structure RealEstateRAG where
  company_profile : Str
  search : Str → Nat → List Doc

/-- The profile-trigger keyword list of `query_knowledge_base`
(`properties_rag.py` line 150). -/
def profile_keywords : List Str :=
  [S "company", S "realestateco", S "founder", S "ceo", S "head office"]

/-- The routing test of `query_knowledge_base` (lines 147-151): any
profile keyword occurring as a substring of the lower-cased query. -/
def routesToProfile (query : Str) : Bool :=
  profile_keywords.any (fun kw => pyContains kw (pyLower query))

/-- Fallback returned on the general path when the concatenated context
is empty or whitespace-only (line 158). -/
def no_data_fallback : Str :=
  S "Sorry, I couldn\x27t find relevant data. Would you like me to connect you with an advisor?"

/-- Fallback returned on the profile path when the company profile is
empty or whitespace-only (line 179). -/
def no_profile_fallback : Str :=
  S "Sorry, I couldn\x27t load the company profile. Would you like me to connect you with an advisor?"

/-- The general-path generation prompt (lines 160-172). -/
def rag_prompt (context query : Str) : Str :=
  S "\nYou are an AI property advisor at RealEstateCo.\n\nUse this market context:\n"
    ++ context
    ++ S "\n\nUser question: \"" ++ query
    ++ S "\"\n\nGuidelines:\n- Keep response short (2–3 sentences)\n- End with: \"Shall I prepare a detailed report?\"\n- Be professional and friendly\n"

/-- The profile-path generation prompt (lines 181-194). -/
def company_prompt (company_profile query : Str) : Str :=
  S "\nYou are an AI assistant at RealEstateCo.\n\nUse ONLY this profile:\n"
    ++ company_profile
    ++ S "\n\nUser question: \"" ++ query
    ++ S "\"\n\nGuidelines:\n- Max 3 sentences\n- Include founder, address, contact if relevant\n- End with: \"If you\x27d like, I can arrange a call with our senior advisors.\"\n- Never invent information\n"

/-- Model of `RealEstateRAG._generate_company_response` (lines 176-196): fixed
fallback on an empty profile, otherwise one generation call whose result
is stripped; an exception from the generation client propagates
(the Python body has no try/except). -/
def generate_company_response (gen : GenClient) (company_profile query : Str) :
    Except Str Str :=
  if pyStrip company_profile = [] then Except.ok no_profile_fallback
  else Except.map pyStrip (gen (company_prompt company_profile query))

/-- Model of `RealEstateRAG.query_knowledge_base` (lines 141-174): keyword routing
to the profile path, otherwise similarity search, context join, empty
fallback, and one generation call whose exception propagates. -/
def query_knowledge_base (rag : RealEstateRAG) (gen : GenClient) (query : Str)
    (k : Nat) : Except Str Str :=
  if routesToProfile query then
    generate_company_response gen rag.company_profile query
  else
    let results := rag.search query k
    let context := pyJoin (S "\n\n") (results.map Doc.page_content)
    if pyStrip context = [] then Except.ok no_data_fallback
    else Except.map pyStrip (gen (rag_prompt context query))

/-! ## Model of `_initialize_vectorstore` (`properties_rag.py` lines 64-89) -/

/-- The FAISS vector store, abstracted to the chunk texts it holds. -/
structure VectorStore where
  chunks : List Str
deriving DecidableEq

/-- The environment `_initialize_vectorstore` runs in:
whether `os.path.exists(INDEX_DIR)` holds, what `FAISS.load_local`
returns when attempted (`Except.error` = deserialization raised), and the
store that the build-from-documents path would produce and persist. -/
structure IndexEnv where
  index_dir_exists : Bool
  load_result : Except Str VectorStore
  built_store : VectorStore

/-- Model of `RealEstateRAG._initialize_vectorstore`: if the index directory
exists, return whatever `FAISS.load_local` yields (an exception
propagates — there is no surrounding try/except); otherwise build from
the documents and persist. -/
def initialize_vectorstore (env : IndexEnv) : Except Str VectorStore :=
  if env.index_dir_exists then env.load_result
  else Except.ok env.built_store

/-! ## Model of `twilio_webhookx.py` -/

/-- The demo client record `CallAssistant.reset` installs (lines 50-57). -/
structure ClientData where
  name : Str
  location : Str
  bedrooms : Nat
  bought_price : Nat
  current_price : Nat
  purchase_year : Nat
deriving DecidableEq

def default_client_data : ClientData :=
  { name := S "Demo Client"
    location := S "Sample City"
    bedrooms := 2
    bought_price := 1200000
    current_price := 3300000
    purchase_year := 2020 }

/-- The per-call `CallAssistant` object (lines 41-60). -/
structure CallAssistant where
  call_id : Str
  client_data : ClientData
  confirm_count : Nat
  reject_count : Nat
  finalized : Bool
deriving DecidableEq

/-- Model of `CallAssistant.__init__` / `reset`: fresh state with zeroed counters. -/
def mkCallAssistant (call_id : Str) : CallAssistant :=
  { call_id := call_id
    client_data := default_client_data
    confirm_count := 0
    reject_count := 0
    finalized := false }

/-- Intent labels returned by `handle_intents`. -/
inductive Intent where
  | confirm
  | reject
  | unknown
deriving DecidableEq

/-- Confirm trigger phrases (`twilio_webhookx.py` line 64). -/
def confirm_triggers : List Str :=
  [S "yes", S "sure", S "go ahead", S "ok", S "interested"]

/-- Reject trigger phrases (line 65). -/
def reject_triggers : List Str :=
  [S "no", S "not now", S "not interested", S "stop", S "leave me"]

/-- Model of `CallAssistant.handle_intents` (lines 62-71): confirm substring check
first, then reject, else unknown.  The caller passes the already
lower-cased utterance. -/
def handle_intents (user_input : Str) : Intent :=
  if confirm_triggers.any (fun w => pyContains w user_input) then Intent.confirm
  else if reject_triggers.any (fun w => pyContains w user_input) then Intent.reject
  else Intent.unknown

/-- Confirm trigger phrases of the `voice2.py` variant (line 93). -/
def voice2_confirm_triggers : List Str :=
  [S "yes", S "let\x27s do it", S "go ahead", S "i\x27m ready", S "interested",
   S "please do", S "okay", S "ok"]

/-- Reject trigger phrases of the `voice2.py` variant (line 94). -/
def voice2_reject_triggers : List Str :=
  [S "no", S "not now", S "not interested", S "leave me", S "don\x27t", S "not today"]

/-- Model of `handle_intents` from the `voice2.py` variant (lines 92-100): same
shape, different phrase tables. -/
def voice2_handle_intents (user_input : Str) : Intent :=
  if voice2_confirm_triggers.any (fun w => pyContains w user_input) then Intent.confirm
  else if voice2_reject_triggers.any (fun w => pyContains w user_input) then Intent.reject
  else Intent.unknown

/-- The fixed human-escalation reply `generate_response` degrades to when
the generation client raises (line 96). -/
def advisor_fallback : Str :=
  S "I understand. Let me connect you with an advisor who can assist further."

/-- The conversational prompt `CallAssistant.generate_response` builds
(lines 75-90). -/
def gemini_prompt (bot : CallAssistant) (user_input : Str) : Str :=
  S "\nYou are Alexa, an AI real estate consultant at RealEstateCo.\n\nClient details:\n- "
    ++ natStr bot.client_data.bedrooms ++ S "-bedroom in " ++ bot.client_data.location
    ++ S "\n- Bought in " ++ natStr bot.client_data.purchase_year
    ++ S " for " ++ natStr bot.client_data.bought_price
    ++ S " Dirhams\n- Current value: " ++ natStr bot.client_data.current_price
    ++ S " Dirhams\n\nUser said: \"" ++ user_input
    ++ S "\"\n\nGuidelines:\n- Speak naturally (2–3 sentences)\n- If they hesitate, emphasize timing and opportunities\n- If they confirm, suggest connecting with an advisor\n- If they reject twice, politely close the call\n"

/-- Model of `CallAssistant.generate_response` (lines 73-96): one generation call,
stripped on success; every exception is caught and degrades to the fixed
advisor-escalation string. -/
def generate_response (gen : GenClient) (bot : CallAssistant) (user_input : Str) : Str :=
  match gen (gemini_prompt bot user_input) with
  | Except.ok t => pyStrip t
  | Except.error _ => advisor_fallback

/-- The module-level `sessions` dict, keyed by Twilio `CallSid`.  The
wall-clock `"start"` timestamp stored alongside the bot is real time and
is not modelled. -/
abbrev Sessions := List (Str × CallAssistant)

/-- Dict membership/lookup: `sessions[call_sid]` / `call_sid in sessions`. -/
def lookupSession : Sessions → Str → Option CallAssistant
  | [], _ => none
  | (k, v) :: rest, sid => if k = sid then some v else lookupSession rest sid

/-- Dict deletion: `del sessions[call_sid]`. -/
def removeSession : Sessions → Str → Sessions
  | [], _ => []
  | (k, v) :: rest, sid =>
      if k = sid then removeSession rest sid else (k, v) :: removeSession rest sid

/-- Dict assignment: `sessions[call_sid] = ...` (replaces any tracked
entry for that key). -/
def setSession (sessions : Sessions) (sid : Str) (bot : CallAssistant) : Sessions :=
  (sid, bot) :: removeSession sessions sid

/-- The greeting spoken by the `/voice` handler (lines 107-111). -/
def voice_greeting (bot : CallAssistant) : Str :=
  S "Hello " ++ bot.client_data.name
    ++ S ", this is Alexa from RealEstateCo. I’d like to discuss your property in "
    ++ bot.client_data.location ++ S ". Is now a good time?"

/-- The `/voice` webhook handler (lines 99-119): unconditionally installs
a fresh `CallAssistant` for the `CallSid` and speaks the greeting. -/
def voice (sessions : Sessions) (call_sid : Str) : Sessions × Str :=
  let bot := mkCallAssistant call_sid
  (setSession sessions call_sid bot, voice_greeting bot)

/-- Reply of `/process` for an untracked `CallSid` (line 132). -/
def session_expired_reply : Str := S "Session expired. Please call back."

/-- Reply of `/process` for an empty utterance (line 139). -/
def repeat_request : Str := S "Could you repeat that?"

/-- Closing message on the second confirm (lines 147-150). -/
def confirm_closing : Str :=
  S "Perfect. Our senior advisor will contact you soon. Thank you for your time."

/-- Interim message on the first confirm (line 155). -/
def confirm_interim : Str := S "Great! Let\x27s explore what works best for you."

/-- Closing message on the second reject (lines 159-162). -/
def reject_closing : Str :=
  S "No problem. Thanks for your time. Have a wonderful day!"

/-- Interim message on the first reject (line 167). -/
def reject_interim : Str :=
  S "I understand. Let me share one strategy that might change your perspective."

/-- The unknown-intent branch of `/process` (lines 168-179).  The two
futures submitted to the thread pool are modelled by their joined
outcomes: `ragOutcome` is `rag_future.result(timeout=3)` and `aiOutcome`
is `ai_future.result(timeout=4)`, where `Except.error` covers both a
timeout and an exception re-raised from the task.  On any such failure
the code calls `bot.generate_response(user_input)` afresh. -/
def unknown_reply (gen : GenClient) (bot : CallAssistant) (user_input : Str)
    (ragOutcome aiOutcome : Except Str Str) : Str :=
  match ragOutcome, aiOutcome with
  | Except.ok ragCtx, Except.ok aiResp => aiResp ++ S " " ++ ragCtx
  | _, _ => generate_response gen bot user_input

/-- Confirm branch of `/process` (lines 144-155): increment the counter,
finalize (hang up and delete the session) at two, else keep the updated
session with the interim reply. -/
def confirmBranch (sessions : Sessions) (sid : Str) (bot : CallAssistant) :
    Sessions × Str × Bool :=
  let bot2 : CallAssistant := { bot with confirm_count := bot.confirm_count + 1 }
  if bot2.confirm_count ≥ 2 then (removeSession sessions sid, confirm_closing, true)
  else (setSession sessions sid bot2, confirm_interim, false)

/-- Reject branch of `/process` (lines 156-167). -/
def rejectBranch (sessions : Sessions) (sid : Str) (bot : CallAssistant) :
    Sessions × Str × Bool :=
  let bot2 : CallAssistant := { bot with reject_count := bot.reject_count + 1 }
  if bot2.reject_count ≥ 2 then (removeSession sessions sid, reject_closing, true)
  else (setSession sessions sid bot2, reject_interim, false)

/-- The `/process` webhook handler (lines 122-188), returning the updated
session map, the reply spoken to the caller, and whether the call was
hung up.  `speech_result` is the raw `SpeechResult` form field, lowered
on entry (line 126). -/
def process (gen : GenClient) (ragOutcome aiOutcome : Except Str Str)
    (sessions : Sessions) (call_sid : Str) (speech_result : Str) :
    Sessions × Str × Bool :=
  let user_input := pyLower speech_result
  match lookupSession sessions call_sid with
  | none => (sessions, session_expired_reply, true)
  | some bot =>
    if user_input = [] then (sessions, repeat_request, false)
    else
      match handle_intents user_input with
      | Intent.confirm => confirmBranch sessions call_sid bot
      | Intent.reject => rejectBranch sessions call_sid bot
      | Intent.unknown =>
          (sessions, unknown_reply gen bot user_input ragOutcome aiOutcome, false)

/-! ## Helper lemmas on the session map -/

theorem lookupSession_removeSession_self (sessions : Sessions) (sid : Str) :
    lookupSession (removeSession sessions sid) sid = none := by
  induction sessions with
  | nil => rfl
  | cons p rest ih =>
    obtain ⟨k, v⟩ := p
    by_cases h : k = sid
    · simp [removeSession, h, ih]
    · simp [removeSession, lookupSession, h, ih]

theorem lookupSession_setSession_self (sessions : Sessions) (sid : Str)
    (bot : CallAssistant) :
    lookupSession (setSession sessions sid bot) sid = some bot := by
  simp [setSession, lookupSession]

theorem handle_intents_nil : handle_intents [] = Intent.unknown := by decide

/-! ## Claims -/

/-- C1, counterexample: the claim that call-start session creation is
idempotent is false.  With `"CA1"` already tracked by a `CallAssistant`
whose `confirm_count` is 1, the `/voice` handler replaces it with a
fresh assistant whose `confirm_count` is back to 0. -/
theorem C1_counterexample :
    lookupSession
        (voice [(S "CA1",
                 { mkCallAssistant (S "CA1") with confirm_count := 1 })] (S "CA1")).1
        (S "CA1") = some (mkCallAssistant (S "CA1")) ∧
    (mkCallAssistant (S "CA1")).confirm_count = 0 ∧
    ({ mkCallAssistant (S "CA1") with confirm_count := 1 } : CallAssistant).confirm_count = 1 := by
  decide

/-- C1 (amended): a call-start for a call_id is never idempotent — the
`/voice` handler unconditionally installs a fresh session for the
call_id, replacing any tracked one, so counters and the finalized flag
are reset to their initial values. -/
theorem C1_call_start_replaces_session (sessions : Sessions) (call_sid : Str) :
    lookupSession (voice sessions call_sid).1 call_sid = some (mkCallAssistant call_sid) ∧
    (mkCallAssistant call_sid).confirm_count = 0 ∧
    (mkCallAssistant call_sid).reject_count = 0 ∧
    (mkCallAssistant call_sid).finalized = false := by
  refine ⟨?_, rfl, rfl, rfl⟩
  simp [voice, lookupSession_setSession_self]

/-- C2, counterexample: the claim that a generation-client error never
propagates out of `query_knowledge_base` is false.  On the profile path
with a non-empty profile and a raising generation client, the query
raises (`Except.error`) instead of returning the fixed fallback. -/
theorem C2_counterexample :
    query_knowledge_base
        ⟨S "RealEstateCo was founded by a demo founder.", fun _ _ => []⟩
        (fun _ => Except.error (S "boom"))
        (S "Who is the founder of RealEstateCo?") 2 = Except.error (S "boom") := by
  rfl

/-- C2 (amended): on both answer paths a generation-client error
propagates out of `query_knowledge_base` uncaught (the fixed fallback
strings are returned only for an empty/whitespace profile or context,
not on generation failure). -/
theorem C2_gen_error_propagates (rag : RealEstateRAG) (gen : GenClient)
    (query e : Str) (k : Nat) :
    (routesToProfile query = true → pyStrip rag.company_profile ≠ [] →
      gen (company_prompt rag.company_profile query) = Except.error e →
      query_knowledge_base rag gen query k = Except.error e) ∧
    (routesToProfile query = false →
      pyStrip (pyJoin (S "\n\n") ((rag.search query k).map Doc.page_content)) ≠ [] →
      gen (rag_prompt (pyJoin (S "\n\n") ((rag.search query k).map Doc.page_content)) query) =
        Except.error e →
      query_knowledge_base rag gen query k = Except.error e) := by
  constructor
  · intro hroute hprof hgen
    simp [query_knowledge_base, hroute, generate_company_response, hprof, hgen, Except.map]
  · intro hroute hctx hgen
    simp [query_knowledge_base, hroute, hctx, hgen, Except.map]

/-- C2, witness for the amended theorem at a concrete input: a profile
query against a loaded profile with a raising generation client yields
the propagated error. -/
theorem C2_witness :
    query_knowledge_base
        ⟨S "RealEstateCo was founded by a demo founder.", fun _ _ => []⟩
        (fun _ => Except.error (S "down"))
        (S "tell me about the ceo") 2 = Except.error (S "down") := by
  exact (C2_gen_error_propagates
      ⟨S "RealEstateCo was founded by a demo founder.", fun _ _ => []⟩
      (fun _ => Except.error (S "down"))
      (S "tell me about the ceo") (S "down") 2).1 (by decide) (by decide) rfl

/-- C4, counterexample: the claim that a corrupt persisted index (a load
error) falls back to a rebuild is false.  When the index directory
exists but `FAISS.load_local` raises, `_initialize_vectorstore` lets the
error propagate instead of building from the documents. -/
theorem C4_counterexample :
    initialize_vectorstore
        { index_dir_exists := true
          load_result := Except.error (S "corrupt index")
          built_store := { chunks := [S "chunk"] } } = Except.error (S "corrupt index") ∧
    initialize_vectorstore
        { index_dir_exists := true
          load_result := Except.error (S "corrupt index")
          built_store := { chunks := [S "chunk"] } } ≠
      Except.ok ({ chunks := [S "chunk"] } : VectorStore) := by
  constructor
  · rfl
  · intro h
    simp [initialize_vectorstore] at h

/-- C4 (amended): only a *missing* persisted index falls back to the
build path; when the index directory exists, `_initialize_vectorstore`
returns whatever the load yields, so a load error propagates and no
rebuild is attempted. -/
theorem C4_init_load_or_build (env : IndexEnv) :
    (env.index_dir_exists = false →
      initialize_vectorstore env = Except.ok env.built_store) ∧
    (∀ e : Str, env.index_dir_exists = true → env.load_result = Except.error e →
      initialize_vectorstore env = Except.error e) := by
  constructor
  · intro h
    simp [initialize_vectorstore, h]
  · intro e h1 h2
    simp [initialize_vectorstore, h1, h2]

/-- C4, witness for the amended theorem at concrete inputs: a missing
index builds, and an existing-but-corrupt index propagates the load
error. -/
theorem C4_witness :
    initialize_vectorstore
        { index_dir_exists := false
          load_result := Except.error (S "unused")
          built_store := { chunks := [S "built"] } } =
      Except.ok ({ chunks := [S "built"] } : VectorStore) ∧
    initialize_vectorstore
        { index_dir_exists := true
          load_result := Except.error (S "gone bad")
          built_store := { chunks := [] } } = Except.error (S "gone bad") := by
  constructor
  · exact (C4_init_load_or_build
      { index_dir_exists := false
        load_result := Except.error (S "unused")
        built_store := { chunks := [S "built"] } }).1 rfl
  · exact (C4_init_load_or_build
      { index_dir_exists := true
        load_result := Except.error (S "gone bad")
        built_store := { chunks := [] } }).2 (S "gone bad") rfl rfl

/-- C3, counterexample: the claim that when exactly one of the two
fan-out calls fails the reply is the successful one's text alone is
false.  With retrieval succeeding (`"Villas rose 12 percent."`), the
generation future timing out, and the generation client down, the
composed reply is the fixed advisor-escalation string — not the
retrieval text. -/
theorem C3_counterexample :
    unknown_reply (fun _ => Except.error (S "gemini down"))
        (mkCallAssistant (S "CA3")) (S "tell me more")
        (Except.ok (S "Villas rose 12 percent.")) (Except.error (S "timeout")) =
      advisor_fallback ∧
    advisor_fallback ≠ S "Villas rose 12 percent." := by
  constructor
  · rfl
  · decide

/-- C3 (amended): if both fan-out calls succeed the reply is the
generated text, a space, then the knowledge text, in that fixed order;
if either one fails (timeout or error) the reply is a fresh standalone
`generate_response` call — the surviving text is discarded, not used
alone; and when the generation client errors, that fresh call returns
the fixed advisor-escalation message, so no raw error reaches the end
user. -/
theorem C3_composition (gen : GenClient) (bot : CallAssistant) (u : Str) :
    (∀ ragCtx aiResp : Str,
      unknown_reply gen bot u (Except.ok ragCtx) (Except.ok aiResp) =
        aiResp ++ S " " ++ ragCtx) ∧
    (∀ (e : Str) (ai : Except Str Str),
      unknown_reply gen bot u (Except.error e) ai = generate_response gen bot u) ∧
    (∀ (ro : Except Str Str) (e : Str),
      unknown_reply gen bot u ro (Except.error e) = generate_response gen bot u) ∧
    (∀ e : Str, gen (gemini_prompt bot u) = Except.error e →
      generate_response gen bot u = advisor_fallback) := by
  refine ⟨fun ragCtx aiResp => rfl, fun e ai => ?_, fun ro e => ?_, fun e h => ?_⟩
  · cases ai <;> rfl
  · cases ro <;> rfl
  · simp [generate_response, h]

/-- C3, witness for the amended theorem at a concrete input: retrieval
succeeded, generation timed out, the retry errors, and the reply is the
advisor-escalation message. -/
theorem C3_witness :
    unknown_reply (fun _ => Except.error (S "x")) (mkCallAssistant (S "CA3w"))
        (S "hello") (Except.ok (S "fact")) (Except.error (S "t")) =
      advisor_fallback := by
  have h := C3_composition (fun _ => Except.error (S "x"))
    (mkCallAssistant (S "CA3w")) (S "hello")
  rw [h.2.2.1 (Except.ok (S "fact")) (S "t")]
  exact h.2.2.2 (S "x") rfl

/-- C6: `handle_intents` checks confirm phrases before reject phrases,
so any lower-cased utterance containing both a confirm-trigger substring
and a reject-trigger substring classifies as confirm.  The same holds
for the `voice2.py` variant with its own phrase tables. -/
theorem C6_confirm_checked_first (u : Str) :
    ((∃ c ∈ confirm_triggers, pyContains c (pyLower u) = true) →
      (∃ r ∈ reject_triggers, pyContains r (pyLower u) = true) →
      handle_intents (pyLower u) = Intent.confirm) ∧
    ((∃ c ∈ voice2_confirm_triggers, pyContains c (pyLower u) = true) →
      (∃ r ∈ voice2_reject_triggers, pyContains r (pyLower u) = true) →
      voice2_handle_intents (pyLower u) = Intent.confirm) := by
  constructor
  · intro hc _
    obtain ⟨c, hmem, hsub⟩ := hc
    have hany : confirm_triggers.any (fun w => pyContains w (pyLower u)) = true :=
      List.any_eq_true.mpr ⟨c, hmem, hsub⟩
    simp [handle_intents, hany]
  · intro hc _
    obtain ⟨c, hmem, hsub⟩ := hc
    have hany : voice2_confirm_triggers.any (fun w => pyContains w (pyLower u)) = true :=
      List.any_eq_true.mpr ⟨c, hmem, hsub⟩
    simp [voice2_handle_intents, hany]

/-- C6, witness: "Yes but no thanks" contains the confirm phrase
`"yes"` and the reject phrase `"no"` and classifies as confirm. -/
theorem C6_witness :
    handle_intents (pyLower (S "Yes but no thanks")) = Intent.confirm :=
  (C6_confirm_checked_first (S "Yes but no thanks")).1
    ⟨S "yes", by decide, by decide⟩ ⟨S "no", by decide, by decide⟩

/-- C7: query routing is exactly the binary keyword test — a profile
keyword as substring of the lower-cased query routes to the
profile-only path, otherwise the general similarity-search path; the
founder question routes to profile and the rental-yield question to
general. -/
theorem C7_routing_binary (rag : RealEstateRAG) (gen : GenClient) (q : Str) (k : Nat) :
    (routesToProfile q = true ↔ ∃ kw ∈ profile_keywords, pyContains kw (pyLower q) = true) ∧
    (routesToProfile q = true →
      query_knowledge_base rag gen q k =
        generate_company_response gen rag.company_profile q) ∧
    (routesToProfile q = false →
      query_knowledge_base rag gen q k =
        (if pyStrip (pyJoin (S "\n\n") ((rag.search q k).map Doc.page_content)) = [] then
          Except.ok no_data_fallback
         else
          Except.map pyStrip
            (gen (rag_prompt (pyJoin (S "\n\n") ((rag.search q k).map Doc.page_content)) q)))) ∧
    routesToProfile (S "Who is the founder of RealEstateCo?") = true ∧
    routesToProfile (S "What is the rental yield trend for villas?") = false := by
  refine ⟨?_, fun h => ?_, fun h => ?_, by decide, by decide⟩
  · simp [routesToProfile, List.any_eq_true]
  · simp [query_knowledge_base, h]
  · simp [query_knowledge_base, h]

/-- C7, witness: the founder question is answered by the profile-only
path of a concrete engine. -/
theorem C7_witness :
    query_knowledge_base ⟨S "profile text", fun _ _ => []⟩
        (fun _ => Except.ok (S "ans")) (S "Who is the founder of RealEstateCo?") 2 =
      generate_company_response (fun _ => Except.ok (S "ans")) (S "profile text")
        (S "Who is the founder of RealEstateCo?") := by
  exact (C7_routing_binary ⟨S "profile text", fun _ _ => []⟩
      (fun _ => Except.ok (S "ans")) (S "Who is the founder of RealEstateCo?") 2).2.1
    (by decide)

/-- C8: on the general path, whenever the joined retrieved context is
empty or whitespace-only, `query_knowledge_base` returns the fixed
no-relevant-data fallback; the result holds for every generation client,
so the Generation Client is never consulted. -/
theorem C8_empty_context_fallback (rag : RealEstateRAG) (gen : GenClient)
    (q : Str) (k : Nat)
    (hroute : routesToProfile q = false)
    (hctx : pyStrip (pyJoin (S "\n\n") ((rag.search q k).map Doc.page_content)) = []) :
    query_knowledge_base rag gen q k = Except.ok no_data_fallback := by
  simp [query_knowledge_base, hroute, hctx]

/-- C8, witness: a search that returns one whitespace-only chunk, with a
raising generation client, still yields the no-data fallback. -/
theorem C8_witness :
    query_knowledge_base ⟨[], fun _ _ => [⟨S "  \n "⟩]⟩
        (fun _ => Except.error (S "never called")) (S "villa yield trends") 2 =
      Except.ok no_data_fallback :=
  C8_empty_context_fallback ⟨[], fun _ _ => [⟨S "  \n "⟩]⟩
    (fun _ => Except.error (S "never called")) (S "villa yield trends") 2
    (by decide) (by decide)

/-- C10: a turn on a tracked call_id with an empty utterance replies
with the fixed repeat-request prompt and leaves everything unchanged:
the session map is returned as-is (so counters, the finalized flag and
trackedness are untouched), the call is not hung up, and the result is
the same for every generation client and every fan-out outcome, so
neither the Knowledge Engine nor the Generation Client is consulted. -/
theorem C10_empty_utterance (gen : GenClient) (ro ai : Except Str Str)
    (sessions : Sessions) (sid : Str) (bot : CallAssistant)
    (hbot : lookupSession sessions sid = some bot) :
    process gen ro ai sessions sid [] = (sessions, repeat_request, false) := by
  simp [process, hbot, pyLower]

/-- C10, witness at a concrete tracked session. -/
theorem C10_witness :
    process (fun _ => Except.ok []) (Except.ok []) (Except.ok [])
        [(S "CA10", mkCallAssistant (S "CA10"))] (S "CA10") [] =
      ([(S "CA10", mkCallAssistant (S "CA10"))], repeat_request, false) :=
  C10_empty_utterance (fun _ => Except.ok []) (Except.ok []) (Except.ok [])
    [(S "CA10", mkCallAssistant (S "CA10"))] (S "CA10") (mkCallAssistant (S "CA10"))
    (by decide)

/-- C9: whenever a turn on a tracked call_id finalizes the call (the
handler hangs up after a closing message), the call_id is removed from
the session map, and every subsequent turn for that call_id — whatever
its utterance, generation client or fan-out outcomes — is answered with
the session-expired reply and a hangup, leaving the map unchanged: no
fresh session is silently re-created and no crash occurs. -/
theorem C9_finalized_removed (gen : GenClient) (ro ai : Except Str Str)
    (sessions : Sessions) (sid u : Str) (bot : CallAssistant)
    (hbot : lookupSession sessions sid = some bot)
    (hfin : (process gen ro ai sessions sid u).2.2 = true) :
    lookupSession (process gen ro ai sessions sid u).1 sid = none ∧
    ∀ (gen2 : GenClient) (ro2 ai2 : Except Str Str) (u2 : Str),
      process gen2 ro2 ai2 (process gen ro ai sessions sid u).1 sid u2 =
        ((process gen ro ai sessions sid u).1, session_expired_reply, true) := by
  have hmap : (process gen ro ai sessions sid u).1 = removeSession sessions sid := by
    by_cases h0 : pyLower u = []
    · exfalso
      simp [process, hbot, h0] at hfin
    · cases hint : handle_intents (pyLower u) with
      | confirm =>
        by_cases h2 : ({ bot with confirm_count := bot.confirm_count + 1 } :
            CallAssistant).confirm_count ≥ 2
        · simp [process, hbot, h0, hint, confirmBranch, h2]
        · exfalso
          simp [process, hbot, h0, hint, confirmBranch, h2] at hfin
      | reject =>
        by_cases h2 : ({ bot with reject_count := bot.reject_count + 1 } :
            CallAssistant).reject_count ≥ 2
        · simp [process, hbot, h0, hint, rejectBranch, h2]
        · exfalso
          simp [process, hbot, h0, hint, rejectBranch, h2] at hfin
      | unknown =>
        exfalso
        simp [process, hbot, h0, hint] at hfin
  have hnone : lookupSession (process gen ro ai sessions sid u).1 sid = none := by
    rw [hmap]
    exact lookupSession_removeSession_self sessions sid
  refine ⟨hnone, fun gen2 ro2 ai2 u2 => ?_⟩
  generalize hm : (process gen ro ai sessions sid u).1 = m at hnone ⊢
  simp [process, hnone]

/-- C9, witness: a session at one prior confirm is finalized by a second
confirm ("yes"); the follow-up turn ("hello again") gets the
session-expired reply with a hangup. -/
theorem C9_witness :
    process (fun _ => Except.ok []) (Except.ok []) (Except.ok [])
        (process (fun _ => Except.ok []) (Except.ok []) (Except.ok [])
          [(S "CA9", { mkCallAssistant (S "CA9") with confirm_count := 1 })]
          (S "CA9") (S "yes")).1
        (S "CA9") (S "hello again") =
      ((process (fun _ => Except.ok []) (Except.ok []) (Except.ok [])
          [(S "CA9", { mkCallAssistant (S "CA9") with confirm_count := 1 })]
          (S "CA9") (S "yes")).1, session_expired_reply, true) :=
  (C9_finalized_removed (fun _ => Except.ok []) (Except.ok []) (Except.ok [])
      [(S "CA9", { mkCallAssistant (S "CA9") with confirm_count := 1 })]
      (S "CA9") (S "yes") { mkCallAssistant (S "CA9") with confirm_count := 1 }
      (by decide) (by decide)).2
    (fun _ => Except.ok []) (Except.ok []) (Except.ok []) (S "hello again")

/-- C5: for a tracked session with both counters at zero, a
confirm-classified turn leaves the call active with `confirm_count = 1`;
a second confirm-classified turn finalizes the call (closing message,
hangup, session removed); a reject-classified second turn instead leaves
the call active and un-finalized, with the independent counters at
`confirm_count = 1`, `reject_count = 1` — neither reached 2. -/
theorem C5_confirm_counters
    (sessions : Sessions) (sid u1 u2 : Str) (bot : CallAssistant)
    (gen1 gen2 : GenClient) (ro1 ai1 ro2 ai2 : Except Str Str)
    (hbot : lookupSession sessions sid = some bot)
    (hc : bot.confirm_count = 0) (hr : bot.reject_count = 0)
    (hf : bot.finalized = false)
    (h1 : handle_intents (pyLower u1) = Intent.confirm) :
    (process gen1 ro1 ai1 sessions sid u1).2.2 = false ∧
    lookupSession (process gen1 ro1 ai1 sessions sid u1).1 sid =
      some { bot with confirm_count := 1 } ∧
    (handle_intents (pyLower u2) = Intent.confirm →
      (process gen2 ro2 ai2 (process gen1 ro1 ai1 sessions sid u1).1 sid u2).2 =
        (confirm_closing, true) ∧
      lookupSession
          (process gen2 ro2 ai2 (process gen1 ro1 ai1 sessions sid u1).1 sid u2).1 sid =
        none) ∧
    (handle_intents (pyLower u2) = Intent.reject →
      (process gen2 ro2 ai2 (process gen1 ro1 ai1 sessions sid u1).1 sid u2).2.2 = false ∧
      lookupSession
          (process gen2 ro2 ai2 (process gen1 ro1 ai1 sessions sid u1).1 sid u2).1 sid =
        some { bot with confirm_count := 1, reject_count := 1 } ∧
      ({ bot with confirm_count := 1, reject_count := 1 } : CallAssistant).finalized =
        false) := by
  have hne1 : ¬ (pyLower u1 = []) := by
    intro h
    rw [h, handle_intents_nil] at h1
    exact absurd h1 (by decide)
  have key1 : process gen1 ro1 ai1 sessions sid u1 =
      (setSession sessions sid { bot with confirm_count := 1 }, confirm_interim, false) := by
    simp [process, hbot, hne1, h1, confirmBranch, hc]
  refine ⟨by rw [key1], ?_, fun h2 => ?_, fun h2 => ?_⟩
  · rw [key1]
    exact lookupSession_setSession_self sessions sid { bot with confirm_count := 1 }
  · have hne2 : ¬ (pyLower u2 = []) := by
      intro h
      rw [h, handle_intents_nil] at h2
      exact absurd h2 (by decide)
    rw [key1]
    simp [process, lookupSession_setSession_self, hne2, h2, confirmBranch,
      lookupSession_removeSession_self]
  · have hne2 : ¬ (pyLower u2 = []) := by
      intro h
      rw [h, handle_intents_nil] at h2
      exact absurd h2 (by decide)
    rw [key1]
    simp [process, lookupSession_setSession_self, hne2, h2, rejectBranch, hr,
      lookupSession_setSession_self, hf]

/-- C5, witness: from a fresh session, "yes" then "sure" finalizes with
the closing message; the reject half is exercised via the theorem's
final conjunct with "no" as second utterance. -/
theorem C5_witness :
    (process (fun _ => Except.ok []) (Except.ok []) (Except.ok [])
        (process (fun _ => Except.ok []) (Except.ok []) (Except.ok [])
          [(S "CA5", mkCallAssistant (S "CA5"))] (S "CA5") (S "yes")).1
        (S "CA5") (S "sure")).2 = (confirm_closing, true) ∧
    (process (fun _ => Except.ok []) (Except.ok []) (Except.ok [])
        (process (fun _ => Except.ok []) (Except.ok []) (Except.ok [])
          [(S "CA5", mkCallAssistant (S "CA5"))] (S "CA5") (S "yes")).1
        (S "CA5") (S "no")).2.2 = false := by
  constructor
  · exact ((C5_confirm_counters [(S "CA5", mkCallAssistant (S "CA5"))] (S "CA5")
      (S "yes") (S "sure") (mkCallAssistant (S "CA5"))
      (fun _ => Except.ok []) (fun _ => Except.ok [])
      (Except.ok []) (Except.ok []) (Except.ok []) (Except.ok [])
      (by decide) (by decide) (by decide) (by decide) (by decide)).2.2.1
      (by decide)).1
  · exact ((C5_confirm_counters [(S "CA5", mkCallAssistant (S "CA5"))] (S "CA5")
      (S "yes") (S "no") (mkCallAssistant (S "CA5"))
      (fun _ => Except.ok []) (fun _ => Except.ok [])
      (Except.ok []) (Except.ok []) (Except.ok []) (Except.ok [])
      (by decide) (by decide) (by decide) (by decide) (by decide)).2.2.2
      (by decide)).1
